import Mathlib

set_option maxRecDepth 8192

/-!
Verification development for the MCP-Postman repository: fourteen wrapper
tools, each exposing one Google Maps Platform REST endpoint.  Every tool file
follows the same pattern: destructure an arguments object (applying inline
defaults), build a query string with `URLSearchParams`, perform one HTTP GET,
and return either the parsed JSON body or `{ error: <string> }`.

The embedding below translates that pattern from the JavaScript sources:

* `JsVal` models the JavaScript primitive argument values that the tool
  schemas admit (string, number, boolean); `Args` models the arguments
  object as a partial map from field name to value (`none` = the field is
  absent or `undefined`).
* `reqParamAs` / `defParam` / `condParam` / `condParamD` are the four
  parameter-append idioms appearing in the sources:
  unconditional `url.searchParams.append(n, v)`, unconditional append of a
  destructured-with-default value, `if (v) url.searchParams.append(n, v)`
  for an optional without default, and the same guard for an optional whose
  destructuring carries a default.
* `encodeForm` is the WHATWG `application/x-www-form-urlencoded` serializer
  used by `URLSearchParams.toString()` (and by `url.toString()` for a query
  built through `url.searchParams`).
* `Json` / `stringify` model JSON values and `JSON.stringify` as used in the
  error branch (`throw new Error(JSON.stringify(errorData))`).
* `Behaviour` models the observable behaviour of the underlying transport
  for one invocation, and `runExecutor` is the shared `try`/`catch` shape of
  every `executeFunction`.  All values thrown inside the `try` block of the
  sources are `Error` instances (the explicit `new Error(...)`, the
  `TypeError` from `fetch`/`new URL`, the `SyntaxError` from
  `response.json()`), so the caught value is modelled by its `.message`
  string and the `error instanceof Error` test always takes the `.message`
  branch.
-/

/-- A JavaScript primitive value as supplied in a tool arguments object. -/
inductive JsVal where
  | str (s : String)
  | num (n : Int)
  | bool (b : Bool)
deriving DecidableEq

/-- JavaScript truthiness for the primitive values above: a string is truthy
iff nonempty, a number iff nonzero, a boolean iff `true`. -/
def truthy : JsVal → Bool
  | .str s => !(s == "")
  | .num n => !(n == 0)
  | .bool b => b

/-- JavaScript `String(v)` coercion applied by `URLSearchParams.append` and by
template literals, restricted to the primitive values above. -/
def jsStr : JsVal → String
  | .str s => s
  | .num n => toString n
  | .bool b => if b then "true" else "false"

/-- JavaScript `String(v)` on a possibly-`undefined` value: `String(undefined)`
is the literal string `"undefined"`. -/
def jsStrOpt : Option JsVal → String
  | some v => jsStr v
  | none => "undefined"

/-- A tool arguments object: field name to value, `none` meaning the field is
absent or `undefined` (the two are indistinguishable for destructuring with
defaults and for truthiness tests). -/
abbrev Args := String → Option JsVal

/-- Build an `Args` map from an association list (first binding wins). -/
def argsOf (l : List (String × JsVal)) : Args :=
  fun n => (l.find? (fun p => p.1 == n)).map (fun p => p.2)

/-- Unconditional `url.searchParams.append(pname, v)` where `v` is the raw
destructured field `field` (no default): an absent field is `undefined` and
stringifies to `"undefined"`.  The sources also use this shape through
`v.toString()` on numeric fields; for a present value the rendering is the
same (the claims below only evaluate such sites at present values). -/
def reqParamAs (a : Args) (field pname : String) : List (String × String) :=
  [(pname, jsStrOpt (a field))]

/-- Specialization of `reqParamAs` where the query-parameter name equals the
field name. -/
def reqParam (a : Args) (n : String) : List (String × String) :=
  reqParamAs a n n

/-- Unconditional append of a field destructured with default `d`
(`{ n = d } = args` followed by `url.searchParams.append(n, n)`). -/
def defParam (a : Args) (n : String) (d : JsVal) : List (String × String) :=
  [(n, jsStr ((a n).getD d))]

/-- The guard `if (v) url.searchParams.append(n, v)` for a field destructured
without a default: included only if present and truthy. -/
def condParam (a : Args) (n : String) : List (String × String) :=
  match a n with
  | some v => if truthy v then [(n, jsStr v)] else []
  | none => []

/-- The guard `if (v) url.searchParams.append(n, v)` for a field destructured
with default `d`: the default is used when the field is absent/`undefined`, and the
(possibly defaulted) value is included only if truthy. -/
def condParamD (a : Args) (n : String) (d : JsVal) : List (String × String) :=
  let v := (a n).getD d
  if truthy v then [(n, jsStr v)] else []

/-- Uppercase hexadecimal digit for `n < 16`. -/
def hexDigitUpper (n : Nat) : Char :=
  if n < 10 then Char.ofNat (48 + n) else Char.ofNat (55 + n)

/-- Lowercase hexadecimal digit for `n < 16`. -/
def hexDigitLower (n : Nat) : Char :=
  if n < 10 then Char.ofNat (48 + n) else Char.ofNat (87 + n)

/-- Bytes left unescaped by the `application/x-www-form-urlencoded`
serializer: `*`, `-`, `.`, `_`, digits, ASCII letters. -/
def isFormSafe (b : Nat) : Bool :=
  b == 0x2A || b == 0x2D || b == 0x2E || b == 0x5F ||
  (0x30 ≤ b && b ≤ 0x39) || (0x41 ≤ b && b ≤ 0x5A) || (0x61 ≤ b && b ≤ 0x7A)

/-- UTF-8 byte sequence of one character. -/
def utf8Bytes (c : Char) : List Nat :=
  let n := c.toNat
  if n < 0x80 then [n]
  else if n < 0x800 then [0xC0 + n / 64, 0x80 + n % 64]
  else if n < 0x10000 then
    [0xE0 + n / 4096, 0x80 + (n / 64) % 64, 0x80 + n % 64]
  else
    [0xF0 + n / 262144, 0x80 + (n / 4096) % 64, 0x80 + (n / 64) % 64,
     0x80 + n % 64]

/-- One byte of form-urlencoded output: safe bytes pass through, space becomes
`+`, everything else becomes `%XX` with uppercase hex. -/
def encodeByte (b : Nat) : String :=
  if isFormSafe b then String.singleton (Char.ofNat b)
  else if b == 0x20 then "+"
  else "%" ++ String.singleton (hexDigitUpper (b / 16)) ++
       String.singleton (hexDigitUpper (b % 16))

/-- The `application/x-www-form-urlencoded` serialization of a string, as
applied by `URLSearchParams.toString()` to every parameter name and value. -/
def encodeForm (s : String) : String :=
  String.join (s.data.map (fun c => String.join ((utf8Bytes c).map encodeByte)))

/-- One `name=value` unit of the serialized query string. -/
def renderPair (p : String × String) : String :=
  encodeForm p.1 ++ "=" ++ encodeForm p.2

/-- Serialization of `URLSearchParams.toString()`: the pairs in insertion order, each rendered
as `name=value` with form-urlencoding, joined by `&`. -/
def serialize : List (String × String) → String
  | [] => ""
  | [p] => renderPair p
  | p :: ps => renderPair p ++ "&" ++ serialize ps

/-- A JSON value, as parsed by `response.json()`. -/
inductive Json where
  | null
  | jbool (b : Bool)
  | jnum (n : Int)
  | jstr (s : String)
  | jarr (xs : List Json)
  | jobj (fields : List (String × Json))

/-- JSON string escaping as performed by `JSON.stringify`. -/
def jsonEscapeChar (c : Char) : String :=
  if c == '"' then "\\\""
  else if c == '\\' then "\\\\"
  else if c.toNat == 8 then "\\b"
  else if c.toNat == 9 then "\\t"
  else if c.toNat == 10 then "\\n"
  else if c.toNat == 12 then "\\f"
  else if c.toNat == 13 then "\\r"
  else if c.toNat < 32 then
    "\\u00" ++ String.singleton (hexDigitLower (c.toNat / 16)) ++
    String.singleton (hexDigitLower (c.toNat % 16))
  else String.singleton c

/-- A JSON-quoted string literal. -/
def quoteJson (s : String) : String :=
  "\"" ++ String.join (s.data.map jsonEscapeChar) ++ "\""

mutual

/-- Model of `JSON.stringify` restricted to the JSON values above. -/
def stringify : Json → String
  | .null => "null"
  | .jbool b => if b then "true" else "false"
  | .jnum n => toString n
  | .jstr s => quoteJson s
  | .jarr xs => "[" ++ stringifyList xs ++ "]"
  | .jobj fs => "\x7b" ++ stringifyFields fs ++ "\x7d"

/-- Comma-joined stringification of array elements. -/
def stringifyList : List Json → String
  | [] => ""
  | [x] => stringify x
  | x :: xs => stringify x ++ "," ++ stringifyList xs

/-- Comma-joined stringification of object fields. -/
def stringifyFields : List (String × Json) → String
  | [] => ""
  | [(k, v)] => quoteJson k ++ ":" ++ stringify v
  | (k, v) :: fs => quoteJson k ++ ":" ++ stringify v ++ "," ++ stringifyFields fs

end

/-- The fourteen tools of the repository, one per `executeFunction`. -/
inductive Tool where
  | distance_matrix
  | autocomplete_place
  | query_autocomplete
  | get_place_details
  | nearby_search
  | text_search
  | find_place_from_text
  | get_time_zone
  | nearest_roads
  | snap_to_roads
  | forecast_days
  | forecast_hours
  | get_hourly_weather
  | current_conditions
deriving DecidableEq

/-- How a tool attaches the API key to the outbound URL:
`encoded` — `url.searchParams.append("key", apiKey)` unconditionally (the key
value is form-urlencoded by serialization, `undefined` stringifies to
`"undefined"`); `encodedIfPresent` — the same append guarded by
`if (apiKey)` (forecast-hours only); `rawConcat` — the fetch URL is the
template literal `` `${url.toString()}&key=${apiKey}` ``, so the key value is
raw, unencoded text. -/
inductive KeyStyle where
  | encoded
  | encodedIfPresent
  | rawConcat
deriving DecidableEq

/-- Key-attachment style of each tool, read off the fetch/append lines of the
corresponding source file. -/
def keyStyle : Tool → KeyStyle
  | .forecast_hours => .encodedIfPresent
  | .forecast_days => .rawConcat
  | .get_hourly_weather => .rawConcat
  | .current_conditions => .rawConcat
  | _ => .encoded

/-- The base URL (scheme, host, path) each tool constructs its `URL` from. -/
def baseUrl : Tool → String
  | .distance_matrix => "https://maps.googleapis.com/maps/api/distancematrix/json"
  | .autocomplete_place => "https://www.googleapis.com/maps/api/place/autocomplete/json"
  | .query_autocomplete => "https://www.googleapis.com/maps/api/place/queryautocomplete/json"
  | .get_place_details => "https://www.googleapis.com/maps/api/place/details/json"
  | .nearby_search => "https://maps.googleapis.com/maps/api/place/nearbysearch/json"
  | .text_search => "https://maps.googleapis.com/maps/api/place/textsearch/json"
  | .find_place_from_text => "https://www.googleapis.com/maps/api/place/findplacefromtext/json"
  | .get_time_zone => "https://www.googleapis.com/maps/api/timezone/json"
  | .nearest_roads => "https://roads.googleapis.com/v1/nearestRoads"
  | .snap_to_roads => "https://roads.googleapis.com/v1/snaptoroads"
  | .forecast_days => "https://weather.googleapis.com/v1/forecast/days:lookup"
  | .forecast_hours => "https://weather.googleapis.com/v1/forecast/hours:lookup"
  | .get_hourly_weather => "https://weather.googleapis.com/v1/history/hours:lookup"
  | .current_conditions => "https://weather.googleapis.com/v1/currentConditions:lookup"

/-- The non-key query parameters each tool appends, in source order, as a
function of the arguments object.  Each line mirrors one append site of the
corresponding `executeFunction`. -/
def buildParams (t : Tool) (a : Args) : List (String × String) :=
  match t with
  | .distance_matrix =>
      reqParam a "origins" ++ reqParam a "destinations" ++
      defParam a "mode" (.str "driving") ++ defParam a "units" (.str "metric") ++
      defParam a "language" (.str "en") ++ condParam a "departure_time" ++
      condParam a "avoid" ++ condParamD a "traffic_model" (.str "best_guess")
  | .autocomplete_place =>
      reqParam a "input" ++ condParam a "sessiontoken" ++
      condParam a "components" ++ condParam a "strictbounds" ++
      condParam a "offset" ++ condParam a "origin" ++ condParam a "location" ++
      condParam a "radius" ++ condParam a "types" ++
      condParamD a "language" (.str "en") ++ condParamD a "region" (.str "en")
  | .query_autocomplete =>
      reqParam a "input" ++ condParam a "offset" ++ condParam a "location" ++
      condParam a "radius" ++ defParam a "language" (.str "en")
  | .get_place_details =>
      reqParam a "place_id" ++ condParam a "fields" ++
      condParam a "sessiontoken" ++ defParam a "language" (.str "en") ++
      defParam a "region" (.str "en")
  | .nearby_search =>
      reqParam a "location" ++ condParam a "keyword" ++ condParam a "name" ++
      condParam a "radius" ++ condParam a "type" ++
      defParam a "language" (.str "en")
  | .text_search =>
      reqParam a "query" ++ condParam a "location" ++ condParam a "maxprice" ++
      condParam a "minprice" ++ condParam a "opennow" ++
      condParam a "pagetoken" ++ condParam a "radius" ++ condParam a "type" ++
      condParamD a "language" (.str "en") ++ condParamD a "region" (.str "en")
  | .find_place_from_text =>
      reqParam a "input" ++ reqParam a "inputtype" ++ condParam a "fields" ++
      condParam a "locationbias" ++ defParam a "language" (.str "en")
  | .get_time_zone =>
      reqParam a "location" ++ reqParam a "timestamp"
  | .nearest_roads =>
      reqParam a "points"
  | .snap_to_roads =>
      reqParam a "path" ++ defParam a "interpolate" (.bool false)
  | .forecast_days =>
      reqParamAs a "latitude" "location.latitude" ++
      reqParamAs a "longitude" "location.longitude" ++
      defParam a "pageSize" (.num 5) ++ condParam a "pageToken" ++
      defParam a "days" (.num 10) ++ defParam a "languageCode" (.str "en")
  | .forecast_hours =>
      reqParamAs a "latitude" "location.latitude" ++
      reqParamAs a "longitude" "location.longitude" ++
      defParam a "unitsSystem" (.str "METRIC") ++
      defParam a "pageSize" (.num 24) ++ condParam a "pageToken" ++
      defParam a "days" (.num 240) ++ defParam a "languageCode" (.str "en")
  | .get_hourly_weather =>
      reqParamAs a "latitude" "location.latitude" ++
      reqParamAs a "longitude" "location.longitude" ++
      defParam a "unitsSystem" (.str "METRIC") ++
      defParam a "pageSize" (.num 24) ++ condParam a "pageToken" ++
      defParam a "hours" (.num 24) ++ defParam a "languageCode" (.str "en")
  | .current_conditions =>
      reqParamAs a "latitude" "location.latitude" ++
      reqParamAs a "longitude" "location.longitude" ++
      defParam a "unitsSystem" (.str "METRIC") ++
      defParam a "languageCode" (.str "en")

/-- Rendering `String(apiKey)` for the raw-concatenation fetch templates: an absent
configuration value is `undefined` and renders as `"undefined"`. -/
def keyString : Option String → String
  | some k => k
  | none => "undefined"

/-- The parameter pairs serialized into the URL query by `URLSearchParams`
(the key pair included exactly as the source appends it; for the raw-concat
tools the key never passes through `URLSearchParams`). -/
def queryPairs (t : Tool) (key : Option String) (a : Args) :
    List (String × String) :=
  match keyStyle t with
  | .encoded => buildParams t a ++ [("key", keyString key)]
  | .encodedIfPresent =>
      buildParams t a ++
      (match key with
       | some k => if k = "" then [] else [("key", k)]
       | none => [])
  | .rawConcat => buildParams t a

/-- The name/value pairs of the query string of the sent request, in order,
key included however the tool attaches it.  This is the request content at
the parameter level, before percent-encoding. -/
def requestParams (t : Tool) (key : Option String) (a : Args) :
    List (String × String) :=
  match keyStyle t with
  | .rawConcat => buildParams t a ++ [("key", keyString key)]
  | _ => queryPairs t key a

/-- The exact URL string passed to `fetch`: for the raw-concat tools it is
`url.toString()` followed by the literal text `&key=` and the raw key value;
for all others it is `url.toString()` with the key already among the
serialized search parameters.  Every tool appends at least one parameter
before the key, so `url.toString()` always carries a `?` and its serialized
query. -/
def sentUrl (t : Tool) (key : Option String) (a : Args) : String :=
  match keyStyle t with
  | .rawConcat =>
      baseUrl t ++ "?" ++ serialize (buildParams t a) ++ "&key=" ++
      keyString key
  | _ => baseUrl t ++ "?" ++ serialize (queryPairs t key a)

/-- The headers object each tool passes to `fetch` (a fixed literal in every
source file, independent of the arguments). -/
def toolHeaders : Tool → List (String × String)
  | .distance_matrix => [("Accept", "application/json")]
  | .autocomplete_place => [("Accept", "application/json")]
  | .query_autocomplete => [("Accept", "application/json")]
  | .get_place_details => [("Accept", "application/json")]
  | .nearby_search => [("Accept", "application/json")]
  | .text_search => [("Accept", "application/json")]
  | .find_place_from_text => [("Accept", "application/json")]
  | .get_time_zone => [("Accept", "application/json")]
  | .nearest_roads => [("Accept", "application/json")]
  | .snap_to_roads => [("Accept", "application/json")]
  | .forecast_days => [("Content-Type", "application/json")]
  | .forecast_hours => [("Content-Type", "application/json")]
  | .get_hourly_weather => [("Content-Type", "application/json")]
  | .current_conditions => [("Content-Type", "application/json")]

/-- The fixed text the `catch` block of each tool puts before the caught
message in the returned `error` string. -/
def errIntro : Tool → String
  | .distance_matrix => "An error occurred while fetching the distance matrix: "
  | .autocomplete_place => "An error occurred while performing autocomplete search: "
  | .query_autocomplete => "An error occurred while performing query autocomplete: "
  | .get_place_details => "An error occurred while fetching place details: "
  | .nearby_search => "An error occurred while performing nearby search: "
  | .text_search => "An error occurred while performing the text search: "
  | .find_place_from_text => "An error occurred while finding place from text: "
  | .get_time_zone => "An error occurred while fetching time zone information: "
  | .nearest_roads => "An error occurred while finding nearest roads: "
  | .snap_to_roads => "An error occurred while snapping to roads: "
  | .forecast_days => "An error occurred while fetching the weather forecast: "
  | .forecast_hours => "An error occurred while fetching the hourly weather forecast: "
  | .get_hourly_weather => "An error occurred while retrieving weather data: "
  | .current_conditions => "An error occurred while fetching current weather conditions: "

/-- Observable behaviour of the environment of one invocation:
`urlError` — an exception (message given) during URL construction inside the
`try` block; `fetchError` — the `fetch` promise rejects (network failure);
`response` — `fetch` resolves with a response whose `ok` flag and status are
given and whose `response.json()` either yields a JSON value or fails with a
parse-error message.  `response.json()` is called exactly once on any path
through the source, so one body outcome per behaviour suffices. -/
inductive Behaviour where
  | urlError (msg : String)
  | fetchError (msg : String)
  | response (ok : Bool) (status : Nat) (body : Except String Json)

/-- The shared `try`/`catch` control flow of every `executeFunction`, with
`pre` the fixed per-tool error-message text: on `response.ok` return the parsed
body; on `!response.ok` parse the body, `throw new Error(JSON.stringify(errorData))`,
and catch it; any other caught error reports its message.  The returned JS
value is either the body verbatim or `{ error: pre + message }`. -/
def runExecutor (pre : String) (b : Behaviour) : Json :=
  match b with
  | .urlError m => .jobj [("error", .jstr (pre ++ m))]
  | .fetchError m => .jobj [("error", .jstr (pre ++ m))]
  | .response ok _ body =>
      if ok then
        match body with
        | .ok j => j
        | .error m => .jobj [("error", .jstr (pre ++ m))]
      else
        match body with
        | .ok j => .jobj [("error", .jstr (pre ++ stringify j))]
        | .error m => .jobj [("error", .jstr (pre ++ m))]

/-- The executor of a tool as a function of the environment behaviour. -/
def executeTool (t : Tool) (b : Behaviour) : Json :=
  runExecutor (errIntro t) b

/-- The documented external test for a failure result: the returned object
has a top-level `error` key bound to a string. -/
def hasErrorString : Json → Bool
  | .jobj fields => fields.any (fun p => p.1 == "error" && match p.2 with
      | .jstr _ => true
      | _ => false)
  | _ => false

/-! ## Helper lemmas about the URL serialization -/

/-- Appending one more pair to a nonempty parameter list extends the
serialized query string by `&` and the rendered pair. -/
theorem serialize_append_single (xs : List (String × String))
    (y : String × String) (h : xs ≠ []) :
    serialize (xs ++ [y]) = serialize xs ++ "&" ++ renderPair y := by
  induction xs with
  | nil => exact absurd rfl h
  | cons p ps ih =>
    cases ps with
    | nil => rfl
    | cons q qs =>
      have hih := ih (by simp)
      show renderPair p ++ "&" ++ serialize ((q :: qs) ++ [y]) =
        renderPair p ++ "&" ++ serialize (q :: qs) ++ "&" ++ renderPair y
      rw [hih]
      simp [String.append_assoc]

/-- Every tool appends at least one query parameter before the key. -/
theorem buildParams_ne_nil (t : Tool) (a : Args) : buildParams t a ≠ [] := by
  cases t <;> simp [buildParams, reqParam, reqParamAs]

/-- Folding the literal pieces of `&key=` around a string. -/
theorem amp_key_eq (s : String) :
    ("&" : String) ++ ("key" ++ ("=" ++ s)) = "&key=" ++ s := by
  rw [← String.append_assoc, ← String.append_assoc]
  show ("&key=" : String) ++ s = "&key=" ++ s
  rfl

/-- Variant of `amp_key_eq` with the middle literal already merged. -/
theorem amp_key_eq2 (s : String) :
    ("&" : String) ++ ("key=" ++ s) = "&key=" ++ s := by
  rw [← String.append_assoc]
  show ("&key=" : String) ++ s = "&key=" ++ s
  rfl

/-- For a tool whose key is appended unconditionally through
`url.searchParams`, the fetch URL is the keyless URL followed by `&key=` and
the form-encoded key value. -/
theorem key_suffix_encoded (t : Tool) (hs : keyStyle t = KeyStyle.encoded)
    (a : Args) (key : Option String) :
    sentUrl t key a =
      baseUrl t ++ "?" ++ serialize (buildParams t a) ++ "&key=" ++
        encodeForm (keyString key) := by
  have hn := buildParams_ne_nil t a
  simp only [sentUrl, queryPairs, hs]
  rw [serialize_append_single _ _ hn]
  simp only [renderPair]
  rw [show encodeForm "key" = "key" from rfl]
  simp [String.append_assoc, amp_key_eq, amp_key_eq2]

/-- The same for the forecast-hours style (`if (apiKey)` guard), for a truthy
(nonempty) key. -/
theorem key_suffix_guarded (t : Tool)
    (hs : keyStyle t = KeyStyle.encodedIfPresent) (a : Args) (k : String)
    (hk : k ≠ "") :
    sentUrl t (some k) a =
      baseUrl t ++ "?" ++ serialize (buildParams t a) ++ "&key=" ++
        encodeForm k := by
  have hn := buildParams_ne_nil t a
  simp only [sentUrl, queryPairs, hs]
  rw [if_neg hk, serialize_append_single _ _ hn]
  simp only [renderPair]
  rw [show encodeForm "key" = "key" from rfl]
  simp [String.append_assoc, amp_key_eq, amp_key_eq2]

/-- The only tool with the guarded key style is forecast-hours. -/
theorem keyStyle_guarded_eq (t : Tool)
    (hs : keyStyle t = KeyStyle.encodedIfPresent) :
    t = Tool.forecast_hours := by
  cases t <;> first | rfl | exact absurd hs (by decide)

/-- An optional-without-default append never yields a pair failing a predicate
that holds of every pair it could produce. -/
theorem all_condParam (a : Args) (n : String) (f : String × String → Bool)
    (h : ∀ v, f (n, jsStr v) = true) : (condParam a n).all f = true := by
  unfold condParam
  cases a n with
  | none => rfl
  | some v => cases htv : truthy v <;> simp [htv, h]

/-! ## Claims -/

/-- C1: for every tool and every behaviour of the underlying HTTP transport
(success, non-success status, transport failure, URL-construction failure,
body-parse failure), the executor resolves with a value and never throws past
the tool boundary: on success it returns the parsed JSON body, and on any
failure it returns an object of shape `{ error: s }` with `s` a string. -/
theorem spec_c1 (t : Tool) (b : Behaviour) :
    (∀ st j, b = Behaviour.response true st (Except.ok j) →
      executeTool t b = j) ∧
    ((∀ st j, b ≠ Behaviour.response true st (Except.ok j)) →
      ∃ s, executeTool t b = Json.jobj [("error", Json.jstr s)]) := by
  constructor
  · rintro st j rfl
    rfl
  · intro hne
    cases b with
    | urlError m => exact ⟨errIntro t ++ m, rfl⟩
    | fetchError m => exact ⟨errIntro t ++ m, rfl⟩
    | response ok st body =>
      cases ok with
      | false =>
        cases body with
        | ok j => exact ⟨errIntro t ++ stringify j, rfl⟩
        | error m => exact ⟨errIntro t ++ m, rfl⟩
      | true =>
        cases body with
        | ok j => exact absurd rfl (hne st j)
        | error m => exact ⟨errIntro t ++ m, rfl⟩

/-- Witness for C1: a simulated transport failure on the distance-matrix tool
yields an `{ error: s }` result. -/
theorem spec_c1_w :
    ∃ s, executeTool Tool.distance_matrix
        (Behaviour.fetchError "connection refused") =
      Json.jobj [("error", Json.jstr s)] :=
  (spec_c1 Tool.distance_matrix (Behaviour.fetchError "connection refused")).2
    (fun _ _ h => Behaviour.noConfusion h)

/-- C3 counterexample: on HTTP 400 with JSON body
`{"error_message":"invalid request"}`, the distance-matrix result is not
an object whose `error` field is the bare stringified body — the code prepends its
fixed message text to the stringified body. -/
theorem spec_c3_cex :
    executeTool Tool.distance_matrix
      (Behaviour.response false 400
        (Except.ok (Json.jobj [("error_message", Json.jstr "invalid request")]))) ≠
    Json.jobj [("error", Json.jstr "\x7b\"error_message\":\"invalid request\"\x7d")] := by
  intro h
  exact absurd (congrArg stringify h) (by decide)

/-- C3 amended: on HTTP 400 with JSON body
`{"error_message":"invalid request"}`, the distance-matrix result is
`{ error: "An error occurred while fetching the distance matrix: " +
the stringified body }` — the whole stringified error body
preceded by the fixed message text of the tool. -/
theorem spec_c3_amended :
    executeTool Tool.distance_matrix
      (Behaviour.response false 400
        (Except.ok (Json.jobj [("error_message", Json.jstr "invalid request")]))) =
    Json.jobj [("error", Json.jstr
      "An error occurred while fetching the distance matrix: \x7b\"error_message\":\"invalid request\"\x7d")] := by
  rfl

/-- C6: when the remote endpoint answers with a non-success status and a body
that is not valid JSON, the secondary parse failure is caught and its message
is what gets reported, and the result is independent of the original HTTP
status code. -/
theorem spec_c6 (t : Tool) (st st2 : Nat) (m : String) :
    executeTool t (Behaviour.response false st (Except.error m)) =
      Json.jobj [("error", Json.jstr (errIntro t ++ m))] ∧
    executeTool t (Behaviour.response false st (Except.error m)) =
      executeTool t (Behaviour.response false st2 (Except.error m)) :=
  ⟨rfl, rfl⟩

/-- C8: every tool sends `Accept: application/json`, except the four
weather-family tools, which send `Content-Type: application/json`; the
header set is a fixed literal per tool. -/
theorem spec_c8 (t : Tool) :
    toolHeaders t =
      (if t = Tool.forecast_days ∨ t = Tool.forecast_hours ∨
          t = Tool.get_hourly_weather ∨ t = Tool.current_conditions
       then [("Content-Type", "application/json")]
       else [("Accept", "application/json")]) := by
  cases t <;> decide

/-- C10: a success (2xx) body is returned verbatim with no filtering, so a
200 body that itself carries a top-level string `error` key yields a success
result that satisfies the documented failure test. -/
theorem spec_c10 (t : Tool) (st : Nat) (j : Json) :
    executeTool t (Behaviour.response true st (Except.ok j)) = j ∧
    executeTool t (Behaviour.response true 200
        (Except.ok (Json.jobj [("error", Json.jstr "boom")]))) =
      Json.jobj [("error", Json.jstr "boom")] ∧
    hasErrorString (Json.jobj [("error", Json.jstr "boom")]) = true :=
  ⟨rfl, rfl, rfl⟩

/-- C2 counterexample: for the forecast-hours tool with the configuration
value absent, the key parameter is not appended at all — the sent URL carries
no `key` parameter (the `if (apiKey)` guard skips the append). -/
theorem spec_c2_cex :
    sentUrl Tool.forecast_hours none
        (argsOf [("latitude", JsVal.num 37), ("longitude", JsVal.num (-122))]) =
      "https://weather.googleapis.com/v1/forecast/hours:lookup?location.latitude=37&location.longitude=-122&unitsSystem=METRIC&pageSize=24&days=240&languageCode=en" ∧
    (queryPairs Tool.forecast_hours none
        (argsOf [("latitude", JsVal.num 37), ("longitude", JsVal.num (-122))])).all
      (fun pr => pr.1 != "key") = true :=
  ⟨by decide, by decide⟩

/-- C2 amended: for every tool, a configured (truthy) API key is appended as
the final query parameter named `key`; when the configuration value is
absent, every tool except forecast-hours still sends the request with the
literal value `key=undefined`, while forecast-hours omits the `key` parameter
entirely (the request is still sent, not rejected locally). -/
theorem spec_c2_amended (t : Tool) (a : Args) (k : String) (h1 : k ≠ "")
    (h2 : encodeForm k = k) :
    (∃ p, sentUrl t (some k) a = p ++ "&key=" ++ k) ∧
    (t ≠ Tool.forecast_hours → ∃ q, sentUrl t none a = q ++ "&key=undefined") ∧
    (queryPairs Tool.forecast_hours none a).all (fun pr => pr.1 != "key") = true := by
  refine ⟨?_, ?_, ?_⟩
  · cases hks : keyStyle t with
    | encoded =>
      refine ⟨baseUrl t ++ "?" ++ serialize (buildParams t a), ?_⟩
      rw [key_suffix_encoded t hks a (some k),
          show keyString (some k) = k from rfl, h2]
    | encodedIfPresent =>
      refine ⟨baseUrl t ++ "?" ++ serialize (buildParams t a), ?_⟩
      rw [key_suffix_guarded t hks a k h1, h2]
    | rawConcat =>
      refine ⟨baseUrl t ++ "?" ++ serialize (buildParams t a), ?_⟩
      simp only [sentUrl, hks, keyString]
  · intro ht
    cases hks : keyStyle t with
    | encoded =>
      refine ⟨baseUrl t ++ "?" ++ serialize (buildParams t a), ?_⟩
      rw [key_suffix_encoded t hks a none,
          show encodeForm (keyString none) = "undefined" from rfl,
          String.append_assoc]
      rfl
    | encodedIfPresent => exact absurd (keyStyle_guarded_eq t hks) ht
    | rawConcat =>
      refine ⟨baseUrl t ++ "?" ++ serialize (buildParams t a), ?_⟩
      simp only [sentUrl, hks, keyString]
      rw [String.append_assoc]
      rfl
  · simp only [queryPairs, keyStyle, List.append_nil, buildParams]
    rcases hpt : a "pageToken" with _ | v
    · simp +decide [reqParamAs, defParam, condParam, hpt]
    · cases htv : truthy v <;>
        simp +decide [reqParamAs, defParam, condParam, hpt, htv]

/-- Witness for C2 amended, at the distance-matrix tool with an alphanumeric
key and concrete arguments. -/
theorem spec_c2_amended_w :
    (∃ p, sentUrl Tool.distance_matrix (some "SECRETKEY")
        (argsOf [("origins", JsVal.str "A"), ("destinations", JsVal.str "B")]) =
      p ++ "&key=" ++ "SECRETKEY") ∧
    (Tool.distance_matrix ≠ Tool.forecast_hours →
      ∃ q, sentUrl Tool.distance_matrix none
          (argsOf [("origins", JsVal.str "A"), ("destinations", JsVal.str "B")]) =
        q ++ "&key=undefined") ∧
    (queryPairs Tool.forecast_hours none
        (argsOf [("origins", JsVal.str "A"), ("destinations", JsVal.str "B")])).all
      (fun pr => pr.1 != "key") = true :=
  spec_c2_amended Tool.distance_matrix
    (argsOf [("origins", JsVal.str "A"), ("destinations", JsVal.str "B")])
    "SECRETKEY" (by decide) (by decide)

/-- C4: for every tool, an invocation supplying all required arguments and no
optional arguments yields exactly the required parameters, then each
documented default, then the API key, in declaration order; optionals without
defaults are absent. -/
theorem spec_c4 (k : String) (hk : k ≠ "") :
    (∀ o d : String,
      requestParams Tool.distance_matrix (some k)
          (argsOf [("origins", JsVal.str o), ("destinations", JsVal.str d)]) =
        [("origins", o), ("destinations", d), ("mode", "driving"),
         ("units", "metric"), ("language", "en"),
         ("traffic_model", "best_guess"), ("key", k)]) ∧
    (∀ i : String,
      requestParams Tool.autocomplete_place (some k)
          (argsOf [("input", JsVal.str i)]) =
        [("input", i), ("language", "en"), ("region", "en"), ("key", k)]) ∧
    (∀ i : String,
      requestParams Tool.query_autocomplete (some k)
          (argsOf [("input", JsVal.str i)]) =
        [("input", i), ("language", "en"), ("key", k)]) ∧
    (∀ pid : String,
      requestParams Tool.get_place_details (some k)
          (argsOf [("place_id", JsVal.str pid)]) =
        [("place_id", pid), ("language", "en"), ("region", "en"), ("key", k)]) ∧
    (∀ l : String,
      requestParams Tool.nearby_search (some k)
          (argsOf [("location", JsVal.str l)]) =
        [("location", l), ("language", "en"), ("key", k)]) ∧
    (∀ q : String,
      requestParams Tool.text_search (some k)
          (argsOf [("query", JsVal.str q)]) =
        [("query", q), ("language", "en"), ("region", "en"), ("key", k)]) ∧
    (∀ i it : String,
      requestParams Tool.find_place_from_text (some k)
          (argsOf [("input", JsVal.str i), ("inputtype", JsVal.str it)]) =
        [("input", i), ("inputtype", it), ("language", "en"), ("key", k)]) ∧
    (∀ l : String, ∀ ts : Int,
      requestParams Tool.get_time_zone (some k)
          (argsOf [("location", JsVal.str l), ("timestamp", JsVal.num ts)]) =
        [("location", l), ("timestamp", toString ts), ("key", k)]) ∧
    (∀ p : String,
      requestParams Tool.nearest_roads (some k)
          (argsOf [("points", JsVal.str p)]) =
        [("points", p), ("key", k)]) ∧
    (∀ p : String,
      requestParams Tool.snap_to_roads (some k)
          (argsOf [("path", JsVal.str p)]) =
        [("path", p), ("interpolate", "false"), ("key", k)]) ∧
    (∀ la lo : Int,
      requestParams Tool.forecast_days (some k)
          (argsOf [("latitude", JsVal.num la), ("longitude", JsVal.num lo)]) =
        [("location.latitude", toString la), ("location.longitude", toString lo),
         ("pageSize", "5"), ("days", "10"), ("languageCode", "en"),
         ("key", k)]) ∧
    (∀ la lo : Int,
      requestParams Tool.forecast_hours (some k)
          (argsOf [("latitude", JsVal.num la), ("longitude", JsVal.num lo)]) =
        [("location.latitude", toString la), ("location.longitude", toString lo),
         ("unitsSystem", "METRIC"), ("pageSize", "24"), ("days", "240"),
         ("languageCode", "en"), ("key", k)]) ∧
    (∀ la lo : Int,
      requestParams Tool.get_hourly_weather (some k)
          (argsOf [("latitude", JsVal.num la), ("longitude", JsVal.num lo)]) =
        [("location.latitude", toString la), ("location.longitude", toString lo),
         ("unitsSystem", "METRIC"), ("pageSize", "24"), ("hours", "24"),
         ("languageCode", "en"), ("key", k)]) ∧
    (∀ la lo : Int,
      requestParams Tool.current_conditions (some k)
          (argsOf [("latitude", JsVal.num la), ("longitude", JsVal.num lo)]) =
        [("location.latitude", toString la), ("location.longitude", toString lo),
         ("unitsSystem", "METRIC"), ("languageCode", "en"), ("key", k)]) := by
  refine ⟨?_, ?_, ?_, ?_, ?_, ?_, ?_, ?_, ?_, ?_, ?_, ?_, ?_, ?_⟩
  · intro o d
    rfl
  · intro i
    rfl
  · intro i
    rfl
  · intro pid
    rfl
  · intro l
    rfl
  · intro q
    rfl
  · intro i it
    rfl
  · intro l ts
    rfl
  · intro p
    rfl
  · intro p
    rfl
  · intro la lo
    rfl
  · intro la lo
    simp only [requestParams, queryPairs, keyStyle]
    rw [if_neg hk]
    rfl
  · intro la lo
    rfl
  · intro la lo
    rfl

/-- Witness for C4, at the distance-matrix tool with concrete values. -/
theorem spec_c4_w :
    requestParams Tool.distance_matrix (some "APIKEY")
        (argsOf [("origins", JsVal.str "A"), ("destinations", JsVal.str "B")]) =
      [("origins", "A"), ("destinations", "B"), ("mode", "driving"),
       ("units", "metric"), ("language", "en"),
       ("traffic_model", "best_guess"), ("key", "APIKEY")] :=
  (spec_c4 "APIKEY" (by decide)).1 "A" "B"

/-- C7: `get_time_zone` with location `39.6034810,-119.6822510` and timestamp
`1331161200` sends a GET to the timezone endpoint with the comma
percent-encoded as `%2C`, the timestamp rendered in decimal, and the
configured key last (for a key that form-encodes to itself). -/
theorem spec_c7 (k : String) (hk : encodeForm k = k) :
    sentUrl Tool.get_time_zone (some k)
        (argsOf [("location", JsVal.str "39.6034810,-119.6822510"),
                 ("timestamp", JsVal.num 1331161200)]) =
      "https://www.googleapis.com/maps/api/timezone/json?location=39.6034810%2C-119.6822510&timestamp=1331161200&key=" ++ k := by
  rw [key_suffix_encoded Tool.get_time_zone rfl _ (some k),
      show keyString (some k) = k from rfl, hk]
  exact congrArg (fun s => s ++ k) (by decide)

/-- Witness for C7 at a concrete alphanumeric key. -/
theorem spec_c7_w :
    sentUrl Tool.get_time_zone (some "APIKEY123")
        (argsOf [("location", JsVal.str "39.6034810,-119.6822510"),
                 ("timestamp", JsVal.num 1331161200)]) =
      "https://www.googleapis.com/maps/api/timezone/json?location=39.6034810%2C-119.6822510&timestamp=1331161200&key=" ++ "APIKEY123" :=
  spec_c7 "APIKEY123" (by decide)

/-- C9: forecast-days, current-conditions and history-hours splice the key
into the fetch URL by raw string concatenation, so a key that does not encode
to itself is sent raw, unlike the form-encoded key every `URLSearchParams`
tool (e.g. distance-matrix) sends. -/
theorem spec_c9 (a a2 : Args) (k : String) (hk : encodeForm k ≠ k) :
    (∃ p, sentUrl Tool.forecast_days (some k) a = p ++ "&key=" ++ k) ∧
    (∃ p, sentUrl Tool.current_conditions (some k) a = p ++ "&key=" ++ k) ∧
    (∃ p, sentUrl Tool.get_hourly_weather (some k) a = p ++ "&key=" ++ k) ∧
    (∃ q, sentUrl Tool.distance_matrix (some k) a2 =
      q ++ "&key=" ++ encodeForm k) ∧
    k ≠ encodeForm k := by
  refine ⟨⟨_, rfl⟩, ⟨_, rfl⟩, ⟨_, rfl⟩,
    ⟨_, key_suffix_encoded Tool.distance_matrix rfl a2 (some k)⟩,
    fun h => hk h.symm⟩

/-- Witness for C9 at the key `a&b`, whose encoded form is `a%26b`. -/
theorem spec_c9_w :
    (∃ p, sentUrl Tool.forecast_days (some "a&b")
        (argsOf [("latitude", JsVal.num 37), ("longitude", JsVal.num (-122))]) =
      p ++ "&key=" ++ "a&b") ∧
    (∃ p, sentUrl Tool.current_conditions (some "a&b")
        (argsOf [("latitude", JsVal.num 37), ("longitude", JsVal.num (-122))]) =
      p ++ "&key=" ++ "a&b") ∧
    (∃ p, sentUrl Tool.get_hourly_weather (some "a&b")
        (argsOf [("latitude", JsVal.num 37), ("longitude", JsVal.num (-122))]) =
      p ++ "&key=" ++ "a&b") ∧
    (∃ q, sentUrl Tool.distance_matrix (some "a&b")
        (argsOf [("origins", JsVal.str "A"), ("destinations", JsVal.str "B")]) =
      q ++ "&key=" ++ encodeForm "a&b") ∧
    "a&b" ≠ encodeForm "a&b" :=
  spec_c9 (argsOf [("latitude", JsVal.num 37), ("longitude", JsVal.num (-122))])
    (argsOf [("origins", JsVal.str "A"), ("destinations", JsVal.str "B")])
    "a&b" (by decide)

/-- C5: for every tool and every optional parameter governed by the
include-only-if-present policy, supplying a value overrides any default
(the supplied value appears, not the default), and supplying a falsy value
(empty string, 0, false — the untruthy `JsVal`s) omits the parameter from
the constructed query entirely.  One conjunct per guarded parameter of each
tool, with the required arguments symbolic and the guarded parameter bound
to an arbitrary value `v`. -/
theorem spec_c5 :
    (∀ o d : String, ∀ v : JsVal,
      buildParams Tool.distance_matrix
          (argsOf [("origins", .str o), ("destinations", .str d),
                   ("departure_time", v)]) =
        [("origins", o), ("destinations", d), ("mode", "driving"),
         ("units", "metric"), ("language", "en")] ++
        (if truthy v then [("departure_time", jsStr v)] else []) ++
        [("traffic_model", "best_guess")]) ∧
    (∀ o d : String, ∀ v : JsVal,
      buildParams Tool.distance_matrix
          (argsOf [("origins", .str o), ("destinations", .str d),
                   ("avoid", v)]) =
        [("origins", o), ("destinations", d), ("mode", "driving"),
         ("units", "metric"), ("language", "en")] ++
        (if truthy v then [("avoid", jsStr v)] else []) ++
        [("traffic_model", "best_guess")]) ∧
    (∀ o d : String, ∀ v : JsVal,
      buildParams Tool.distance_matrix
          (argsOf [("origins", .str o), ("destinations", .str d),
                   ("traffic_model", v)]) =
        [("origins", o), ("destinations", d), ("mode", "driving"),
         ("units", "metric"), ("language", "en")] ++
        (if truthy v then [("traffic_model", jsStr v)] else [])) ∧
    (∀ i : String, ∀ v : JsVal,
      buildParams Tool.autocomplete_place
          (argsOf [("input", .str i), ("sessiontoken", v)]) =
        [("input", i)] ++
        (if truthy v then [("sessiontoken", jsStr v)] else []) ++
        [("language", "en"), ("region", "en")]) ∧
    (∀ i : String, ∀ v : JsVal,
      buildParams Tool.autocomplete_place
          (argsOf [("input", .str i), ("components", v)]) =
        [("input", i)] ++
        (if truthy v then [("components", jsStr v)] else []) ++
        [("language", "en"), ("region", "en")]) ∧
    (∀ i : String, ∀ v : JsVal,
      buildParams Tool.autocomplete_place
          (argsOf [("input", .str i), ("strictbounds", v)]) =
        [("input", i)] ++
        (if truthy v then [("strictbounds", jsStr v)] else []) ++
        [("language", "en"), ("region", "en")]) ∧
    (∀ i : String, ∀ v : JsVal,
      buildParams Tool.autocomplete_place
          (argsOf [("input", .str i), ("offset", v)]) =
        [("input", i)] ++
        (if truthy v then [("offset", jsStr v)] else []) ++
        [("language", "en"), ("region", "en")]) ∧
    (∀ i : String, ∀ v : JsVal,
      buildParams Tool.autocomplete_place
          (argsOf [("input", .str i), ("origin", v)]) =
        [("input", i)] ++
        (if truthy v then [("origin", jsStr v)] else []) ++
        [("language", "en"), ("region", "en")]) ∧
    (∀ i : String, ∀ v : JsVal,
      buildParams Tool.autocomplete_place
          (argsOf [("input", .str i), ("location", v)]) =
        [("input", i)] ++
        (if truthy v then [("location", jsStr v)] else []) ++
        [("language", "en"), ("region", "en")]) ∧
    (∀ i : String, ∀ v : JsVal,
      buildParams Tool.autocomplete_place
          (argsOf [("input", .str i), ("radius", v)]) =
        [("input", i)] ++
        (if truthy v then [("radius", jsStr v)] else []) ++
        [("language", "en"), ("region", "en")]) ∧
    (∀ i : String, ∀ v : JsVal,
      buildParams Tool.autocomplete_place
          (argsOf [("input", .str i), ("types", v)]) =
        [("input", i)] ++
        (if truthy v then [("types", jsStr v)] else []) ++
        [("language", "en"), ("region", "en")]) ∧
    (∀ i : String, ∀ v : JsVal,
      buildParams Tool.autocomplete_place
          (argsOf [("input", .str i), ("language", v)]) =
        [("input", i)] ++
        (if truthy v then [("language", jsStr v)] else []) ++
        [("region", "en")]) ∧
    (∀ i : String, ∀ v : JsVal,
      buildParams Tool.autocomplete_place
          (argsOf [("input", .str i), ("region", v)]) =
        [("input", i), ("language", "en")] ++
        (if truthy v then [("region", jsStr v)] else [])) ∧
    (∀ i : String, ∀ v : JsVal,
      buildParams Tool.query_autocomplete
          (argsOf [("input", .str i), ("offset", v)]) =
        [("input", i)] ++
        (if truthy v then [("offset", jsStr v)] else []) ++
        [("language", "en")]) ∧
    (∀ i : String, ∀ v : JsVal,
      buildParams Tool.query_autocomplete
          (argsOf [("input", .str i), ("location", v)]) =
        [("input", i)] ++
        (if truthy v then [("location", jsStr v)] else []) ++
        [("language", "en")]) ∧
    (∀ i : String, ∀ v : JsVal,
      buildParams Tool.query_autocomplete
          (argsOf [("input", .str i), ("radius", v)]) =
        [("input", i)] ++
        (if truthy v then [("radius", jsStr v)] else []) ++
        [("language", "en")]) ∧
    (∀ pid : String, ∀ v : JsVal,
      buildParams Tool.get_place_details
          (argsOf [("place_id", .str pid), ("fields", v)]) =
        [("place_id", pid)] ++
        (if truthy v then [("fields", jsStr v)] else []) ++
        [("language", "en"), ("region", "en")]) ∧
    (∀ pid : String, ∀ v : JsVal,
      buildParams Tool.get_place_details
          (argsOf [("place_id", .str pid), ("sessiontoken", v)]) =
        [("place_id", pid)] ++
        (if truthy v then [("sessiontoken", jsStr v)] else []) ++
        [("language", "en"), ("region", "en")]) ∧
    (∀ l : String, ∀ v : JsVal,
      buildParams Tool.nearby_search
          (argsOf [("location", .str l), ("keyword", v)]) =
        [("location", l)] ++
        (if truthy v then [("keyword", jsStr v)] else []) ++
        [("language", "en")]) ∧
    (∀ l : String, ∀ v : JsVal,
      buildParams Tool.nearby_search
          (argsOf [("location", .str l), ("name", v)]) =
        [("location", l)] ++
        (if truthy v then [("name", jsStr v)] else []) ++
        [("language", "en")]) ∧
    (∀ l : String, ∀ v : JsVal,
      buildParams Tool.nearby_search
          (argsOf [("location", .str l), ("radius", v)]) =
        [("location", l)] ++
        (if truthy v then [("radius", jsStr v)] else []) ++
        [("language", "en")]) ∧
    (∀ l : String, ∀ v : JsVal,
      buildParams Tool.nearby_search
          (argsOf [("location", .str l), ("type", v)]) =
        [("location", l)] ++
        (if truthy v then [("type", jsStr v)] else []) ++
        [("language", "en")]) ∧
    (∀ q : String, ∀ v : JsVal,
      buildParams Tool.text_search
          (argsOf [("query", .str q), ("location", v)]) =
        [("query", q)] ++
        (if truthy v then [("location", jsStr v)] else []) ++
        [("language", "en"), ("region", "en")]) ∧
    (∀ q : String, ∀ v : JsVal,
      buildParams Tool.text_search
          (argsOf [("query", .str q), ("maxprice", v)]) =
        [("query", q)] ++
        (if truthy v then [("maxprice", jsStr v)] else []) ++
        [("language", "en"), ("region", "en")]) ∧
    (∀ q : String, ∀ v : JsVal,
      buildParams Tool.text_search
          (argsOf [("query", .str q), ("minprice", v)]) =
        [("query", q)] ++
        (if truthy v then [("minprice", jsStr v)] else []) ++
        [("language", "en"), ("region", "en")]) ∧
    (∀ q : String, ∀ v : JsVal,
      buildParams Tool.text_search
          (argsOf [("query", .str q), ("opennow", v)]) =
        [("query", q)] ++
        (if truthy v then [("opennow", jsStr v)] else []) ++
        [("language", "en"), ("region", "en")]) ∧
    (∀ q : String, ∀ v : JsVal,
      buildParams Tool.text_search
          (argsOf [("query", .str q), ("pagetoken", v)]) =
        [("query", q)] ++
        (if truthy v then [("pagetoken", jsStr v)] else []) ++
        [("language", "en"), ("region", "en")]) ∧
    (∀ q : String, ∀ v : JsVal,
      buildParams Tool.text_search
          (argsOf [("query", .str q), ("radius", v)]) =
        [("query", q)] ++
        (if truthy v then [("radius", jsStr v)] else []) ++
        [("language", "en"), ("region", "en")]) ∧
    (∀ q : String, ∀ v : JsVal,
      buildParams Tool.text_search
          (argsOf [("query", .str q), ("type", v)]) =
        [("query", q)] ++
        (if truthy v then [("type", jsStr v)] else []) ++
        [("language", "en"), ("region", "en")]) ∧
    (∀ q : String, ∀ v : JsVal,
      buildParams Tool.text_search
          (argsOf [("query", .str q), ("language", v)]) =
        [("query", q)] ++
        (if truthy v then [("language", jsStr v)] else []) ++
        [("region", "en")]) ∧
    (∀ q : String, ∀ v : JsVal,
      buildParams Tool.text_search
          (argsOf [("query", .str q), ("region", v)]) =
        [("query", q), ("language", "en")] ++
        (if truthy v then [("region", jsStr v)] else [])) ∧
    (∀ i it : String, ∀ v : JsVal,
      buildParams Tool.find_place_from_text
          (argsOf [("input", .str i), ("inputtype", .str it), ("fields", v)]) =
        [("input", i), ("inputtype", it)] ++
        (if truthy v then [("fields", jsStr v)] else []) ++
        [("language", "en")]) ∧
    (∀ i it : String, ∀ v : JsVal,
      buildParams Tool.find_place_from_text
          (argsOf [("input", .str i), ("inputtype", .str it),
                   ("locationbias", v)]) =
        [("input", i), ("inputtype", it)] ++
        (if truthy v then [("locationbias", jsStr v)] else []) ++
        [("language", "en")]) ∧
    (∀ la lo : Int, ∀ v : JsVal,
      buildParams Tool.forecast_days
          (argsOf [("latitude", .num la), ("longitude", .num lo),
                   ("pageToken", v)]) =
        [("location.latitude", toString la),
         ("location.longitude", toString lo), ("pageSize", "5")] ++
        (if truthy v then [("pageToken", jsStr v)] else []) ++
        [("days", "10"), ("languageCode", "en")]) ∧
    (∀ la lo : Int, ∀ v : JsVal,
      buildParams Tool.forecast_hours
          (argsOf [("latitude", .num la), ("longitude", .num lo),
                   ("pageToken", v)]) =
        [("location.latitude", toString la),
         ("location.longitude", toString lo), ("unitsSystem", "METRIC"),
         ("pageSize", "24")] ++
        (if truthy v then [("pageToken", jsStr v)] else []) ++
        [("days", "240"), ("languageCode", "en")]) ∧
    (∀ la lo : Int, ∀ v : JsVal,
      buildParams Tool.get_hourly_weather
          (argsOf [("latitude", .num la), ("longitude", .num lo),
                   ("pageToken", v)]) =
        [("location.latitude", toString la),
         ("location.longitude", toString lo), ("unitsSystem", "METRIC"),
         ("pageSize", "24")] ++
        (if truthy v then [("pageToken", jsStr v)] else []) ++
        [("hours", "24"), ("languageCode", "en")]) := by
  refine ⟨?_, ?_, ?_, ?_, ?_, ?_, ?_, ?_, ?_, ?_, ?_, ?_, ?_, ?_, ?_, ?_,
    ?_, ?_, ?_, ?_, ?_, ?_, ?_, ?_, ?_, ?_, ?_, ?_, ?_, ?_, ?_, ?_, ?_,
    ?_, ?_, ?_⟩ <;>
  · intros
    rename_i v
    cases h : truthy v <;>
      simp +decide [buildParams, reqParam, reqParamAs, defParam, condParam,
        condParamD, argsOf, jsStrOpt, jsStr, h]
